import Mathlib

/-!
Verification of the astng inference engine (`src/inference.py`).

The development shallowly embeds the inference module: Python generators
become eager lists inside a monad `M` that threads the recursion-guard
path (shared by reference across one inference request in the source) as
state and Python exceptions as `Except` errors.  Node identity (used by
the recursion guard) is modelled by an explicit `nid` field on every
node, mirroring CPython object identity.  External collaborators that
live outside `src/` (scope lookup, module resolution, attribute lookup,
the literal nodes' own inference, the `path_wrapper` recursion guard and
`_infer_stmts`) are modelled from the specification and marked as such
in their doc comments; everything else is translated directly from
`src/inference.py`.
-/

namespace Astng

/-- Exceptions of the source module: `InferenceError` (generic inference
failure), its subtype `UnresolvableName`, plus the fuel-exhaustion marker
used by the embedding to make non-termination observable.  `NoDefault` is
modelled by `Option` on `default_value`; `NotFoundError` and
`ASTNGBuildingException` appear only at the sites that catch them. -/
inductive Err where
  | inferenceError
  | unresolvableName (name : String)
  | outOfFuel

/-- Python exceptions raised by the `getitem` protocol:
`AttributeError` (the object has no `getitem`) and `IndexError`. -/
inductive GErr where
  | attributeError
  | indexError

/-- The `UnresolvableName` class subclasses `InferenceError` in the
source, so an `except InferenceError` clause catches both; fuel
exhaustion is never caught. -/
def Err.isInferenceError : Err → Bool
  | .inferenceError => true
  | .unresolvableName _ => true
  | .outOfFuel => false

/-- AST nodes (the tree collaborator's per-kind structural fields, §3 of
the spec).  `nid` models CPython object identity, used by the recursion
guard.  A `function` node carries the data the source reads off astng
`Function` nodes: `argnames` (`None` when statically unextractable),
`defaults`/`mulargs` modelling `default_value`/`mularg_class`, `ftype`
(`'method'`/`'classmethod'`/plain), `pframe` modelling
`parent.frame()`, the `is_generator()` flag, and the return-value
expressions collected by `nodes_of_class(Return, skip_klass=Function)`. -/
inductive Node where
  | const (nid : Nat) (value : Int)
  | name (nid : Nat) (id : String)
  | keyword (nid : Nat) (kname : String) (expr : Node)
  | callFunc (nid : Nat) (func : Node) (args : List Node)
      (starargs : Option Node) (dstarargs : Option Node)
  | binOp (nid : Nat) (op : String) (left : Node) (right : Node)
  | subscript (nid : Nat) (expr : Node) (subs : List Node)
  | listN (nid : Nat) (elts : List Node)
  | tupleN (nid : Nat) (elts : List Node)
  | function (nid : Nat) (fname : String) (argnames : Option (List String))
      (defaults : List (String × Node)) (mulargs : List (String × Node))
      (ftype : String) (pframe : Node) (isGen : Bool) (returns : List Node)
  | classN (nid : Nat) (cname : String) (body : List Node)
  | module (nid : Nat) (mname : String)
  | importN (nid : Nat) (names : List (String × Option String))

/-- Node identity, the first component of a recursion-guard key. -/
def Node.nid : Node → Nat
  | .const n _ => n
  | .name n _ => n
  | .keyword n _ _ => n
  | .callFunc n _ _ _ _ => n
  | .binOp n _ _ _ => n
  | .subscript n _ _ => n
  | .listN n _ => n
  | .tupleN n _ => n
  | .function n _ _ _ _ _ _ _ _ => n
  | .classN n _ _ => n
  | .module n _ => n
  | .importN n _ => n

/-- Inferred values (§3): a tree node inferring to itself (constants,
containers, functions, classes, modules), `Instance(cls)`,
`Generator(func)`, and the `YES` unknown sentinel. -/
inductive IVal where
  | node (n : Node)
  | inst (cls : Node)
  | generator (func : Node)
  | yes

/-- The recursion-guard path: (node identity, lookup name) pairs already
under resolution in this request (§4.1). -/
abbrev GuardPath := List (Nat × Option String)

/-- The inference monad: the guard path is threaded as state (it is
shared by reference across every branch of one request in the source)
and Python exceptions are `Except` errors. -/
abbrev M (α : Type) := ExceptT Err (StateM GuardPath) α

/-- An `except InferenceError` clause: `UnresolvableName` is a subclass
and is caught too; fuel exhaustion always propagates. -/
def catchInf {α : Type} (body : M α) (hdl : M α) : M α :=
  tryCatch body (fun e => if e.isInferenceError then hdl else throw e)

/-- Eager counterpart of yielding every value of `f x` for each `x` of a
list inside a generator. -/
def concatMapM {α β : Type} (f : α → M (List β)) : List α → M (List β)
  | [] => pure []
  | x :: xs => do
      let h ← f x
      let t ← concatMapM f xs
      pure (h ++ t)

/-- `CallContext` (the call binder's state): positional argument
expressions, named keyword arguments, `*args` and `**kwargs`
expressions. -/
structure CallCtx where
  args : List Node
  nargs : List (String × Node)
  starargs : Option Node
  dstarargs : Option Node

/-- `CallContext.__init__`: split the call site's argument list into
positional arguments and named keyword arguments.  Keyword entries are
prepended and looked up first-match, which matches dict assignment
(later duplicates win). -/
def CallCtx.make (arglist : List Node) (starargs dstarargs : Option Node) : CallCtx :=
  arglist.foldl
    (fun cc a =>
      match a with
      | .keyword _ n e => CallCtx.mk cc.args ((n, e) :: cc.nargs) cc.starargs cc.dstarargs
      | a => CallCtx.mk (cc.args ++ [a]) cc.nargs cc.starargs cc.dstarargs)
    (CallCtx.mk [] [] starargs dstarargs)

/-- `InferenceContext` minus the guard path (which lives in the monad's
state): the name being resolved, the active call binding, and the bound
receiver.  `clone`/`copy_context` are record copies. -/
structure Ctx where
  lookupname : Option String
  callcontext : Option CallCtx
  boundnode : Option Node

/-- Modelled from the spec: the importing module's view of the external
module-resolution collaborator — its own name, `relative_name`, and
`import_module` (whose failure stands for
`ASTNGBuildingException`/`SyntaxError`). -/
structure ModuleInfo where
  mname : String
  relativeName : String → String
  importModule : String → Except Unit Node

/-- Modelled from the spec: the external tree/semantic-model
collaborators the module consumes (§6) — scope `lookup`, the `getattr`
capability probe used by the operator branches, and the module-resolution
view of the node's root module. -/
structure Env where
  lookup : String → List Node
  getattrOk : IVal → String → Bool
  root : ModuleInfo

/-- Node accessor for `Function.argnames` (`none` models astng's `None`,
i.e. no argument-name information). -/
def Node.fargnames : Node → Option (List String)
  | .function _ _ a _ _ _ _ _ _ => a
  | _ => none

/-- Node accessor for `Function.type`. -/
def Node.ftypeOf : Node → String
  | .function _ _ _ _ _ t _ _ _ => t
  | _ => ""

/-- Node accessor for `parent.frame()` of a function. -/
def Node.pframeOf : Node → Node
  | .function _ _ _ _ _ _ p _ _ => p
  | n => n

/-- Modelled external `Function.mularg_class(name)`: the synthetic
Tuple/Dict placeholder node when `name` is the `*`/`**` collector. -/
def Node.mularg_class (n : Node) (argname : String) : Option Node :=
  match n with
  | .function _ _ _ _ m _ _ _ _ => (m.find? (fun p => p.1 == argname)).map (·.2)
  | _ => none

/-- Modelled external `Function.default_value(name)`: the declared
default expression; `none` stands for the `NoDefault` exception. -/
def Node.default_value (n : Node) (argname : String) : Option Node :=
  match n with
  | .function _ _ _ d _ _ _ _ _ => (d.find? (fun p => p.1 == argname)).map (·.2)
  | _ => none

/-- Python sequence indexing as performed by `self.elts[index]`:
non-negative indices address from the front, negative indices from the
back, anything else raises `IndexError`. -/
def pyIndex (n : Nat) (i : Int) : Option Nat :=
  if 0 ≤ i then
    if i < (n : Int) then some i.toNat else none
  else
    if 0 ≤ (n : Int) + i then some ((n : Int) + i).toNat else none

/-- Completion of a Python indexing operation: a found element, or the
`IndexError` raised by an absent one. -/
def elts_getitem (o : Option Node) : Except GErr Node :=
  match o with
  | some e => .ok e
  | none => .error .indexError

/-- `tl_getitem` registered on `List` and `Tuple` nodes: plain Python
indexing into `self.elts`. -/
def tl_getitem (elts : List Node) (index : Int) : Except GErr Node :=
  elts_getitem ((pyIndex elts.length index).bind (fun k => elts.get? k))

/-- The `getitem` attribute is registered only on `List` and `Tuple`
nodes (the `Dict` variant is outside this model); reading it on any
other node raises `AttributeError`. -/
def Node.getitem : Node → Int → Except GErr Node
  | .listN _ elts, i => tl_getitem elts i
  | .tupleN _ elts, i => tl_getitem elts i
  | _, _ => .error .attributeError

/-- Indexed access on an inferred value.  Modelled from the spec for the
non-node cases: the `YES` sentinel absorbs attribute access, so
`YES.getitem(i)` is `YES` again (callers then detect it, "cannot look
inside an unknown value"); instances and generators have no `getitem`. -/
def IVal.getitem : IVal → Int → Except GErr IVal
  | .yes, _ => .ok .yes
  | .node n, i => (Node.getitem n i).map .node
  | _, _ => .error .attributeError

/-- Keyed access on an inferred value for the `**kwargs` branch.
Modelled from the spec: `YES` absorbs it; mapping nodes (`Dict`) are
outside this model, and keyed access on the modelled node kinds raises
`AttributeError` as for any non-mapping object. -/
def IVal.getitemStr : IVal → String → Except GErr IVal
  | .yes, _ => .ok .yes
  | _, _ => .error .attributeError

/-- Modelled from the spec and the source's commented-out `_py_value`:
a value "reduces to a concrete literal" exactly when it is a `Const`
node (the only literal kind in this model); `none` stands for the
`ValueError` escape. -/
def pyValue : IVal → Option Int
  | .node (.const _ v) => some v
  | _ => none

/-- The dispatch signature shared by every per-kind inference rule: one
node, one context, a lazy-in-the-source (eager here) list of inferred
values. -/
abbrev InferRec := Node → Ctx → M (List IVal)

/-- Modelled from the spec: non-node inferred values re-inferred by an
aggregation point infer to themselves (the Unknown sentinel "propagates
through compound computations"). -/
def inferIVal (rec : InferRec) (v : IVal) (ctx : Ctx) : M (List IVal) :=
  match v with
  | .node n => rec n ctx
  | v => pure [v]

/-- Modelled from the spec: `_infer_name` on a candidate defining
statement — a function/class/module statement that itself defines the
looked-up name is inferred with no target name (it then "infers to
itself", §4.3). -/
def stmt_lookupname (stmt : Node) (lname : Option String) : Option String :=
  match stmt, lname with
  | .function _ f _ _ _ _ _ _ _, some n => if f = n then none else some n
  | .classN _ c _, some n => if c = n then none else some n
  | .module _ m, some n => if m = n then none else some n
  | _, n => n

/-- Modelled from the spec: `_infer_stmts` — delegate to each candidate
defining statement and concatenate; a single candidate's failure does
not abort its siblings, and the operation fails outright only when no
candidate yielded a value (§4.3 Name, §7). -/
def infer_stmts (rec : InferRec) (stmts : List Node) (ctx : Ctx) : M (List IVal) := do
  let res ← concatMapM
    (fun stmt =>
      catchInf (rec stmt (Ctx.mk (stmt_lookupname stmt ctx.lookupname) ctx.callcontext ctx.boundnode))
        (pure []))
    stmts
  if res.isEmpty then throw .inferenceError else pure res

/-- `infer_name`: clone the context, set the lookup name, resolve via
the external scope lookup, and delegate to the candidate statements;
`UnresolvableName` when the lookup finds nothing. -/
def infer_name (rec : InferRec) (env : Env) (idname : String) (ctx : Ctx) : M (List IVal) := do
  let ctx2 := Ctx.mk (some idname) ctx.callcontext ctx.boundnode
  let stmts := env.lookup idname
  if stmts.isEmpty then throw (.unresolvableName idname)
  else infer_stmts rec stmts ctx2

/-- The `its` collection loop shared by the `*args` and `**kwargs`
branches of `infer_argument`: a `YES` source contributes `(YES,)`;
`AttributeError` (and an inference failure) contributes `(YES,)`;
`IndexError` skips the source.  The source appends lazy generators —
modelled eagerly. -/
def collectIts (rec : InferRec) (ctx : Ctx) (getit : IVal → Except GErr IVal) :
    List IVal → M (List (List IVal))
  | [] => pure []
  | v :: rest => do
    let entry : Option (List IVal) ←
      match v with
      | .yes => pure (some [IVal.yes])
      | v =>
        match getit v with
        | .error .attributeError => pure (some [IVal.yes])
        | .error .indexError => pure none
        | .ok g => catchInf (do
            let r ← inferIVal rec g ctx
            pure (some r)) (pure (some [IVal.yes]))
    let t ← collectIts rec ctx getit rest
    match entry with
    | none => pure t
    | some e => pure (e :: t)

/-- `CallContext.infer_argument`: resolve a callee parameter from the
call site, in the source's order — named keywords first; then, when the
parameter list is extractable and contains the name: bound first
argument of a method/classmethod, positional index, `*args`; then
`**kwargs`, the `*`/`**` collector placeholder, and the declared
default; `InferenceError` when nothing applies (`NoDefault`). -/
def infer_argument (rec : InferRec) (cc : CallCtx) (funcnode : Node) (argname : String)
    (ctx : Ctx) : M (List IVal) :=
  match cc.nargs.find? (fun p => p.1 == argname) with
  | some p => rec p.2 ctx
  | none =>
    let step4 : M (List IVal) := do
      let step5 : M (List IVal) :=
        match funcnode.mularg_class argname with
        | some mularg => pure [IVal.node mularg]
        | none =>
          match funcnode.default_value argname with
          | some d => rec d ctx
          | none => throw .inferenceError
      match cc.dstarargs with
      | none => step5
      | some dsa => do
        let vs ← rec dsa ctx
        let its ← collectIts rec ctx (fun v => v.getitemStr argname) vs
        if its.isEmpty then step5 else pure its.flatten
    match funcnode.fargnames with
    | none => step4
    | some argnames =>
      match argnames.findIdx? (fun a => a == argname) with
      | none => step4
      | some argindex =>
        if argindex == 0 && (funcnode.ftypeOf == "method" || funcnode.ftypeOf == "classmethod") then
          let boundnode :=
            match ctx.boundnode with
            | some b => b
            | none => funcnode.pframeOf
          if funcnode.ftypeOf == "method" then pure [IVal.inst boundnode]
          else pure [IVal.node boundnode]
        else
          match cc.args.get? argindex with
          | some a => rec a ctx
          | none => do
            match cc.starargs with
            | none => step4
            | some sa => do
              let vs ← rec sa ctx
              let its ← collectIts rec ctx (fun v => v.getitem (argindex : Int)) vs
              if its.isEmpty then step4 else pure its.flatten

/-- `infer_function` (shared by `Function` and `Lambda`): with no lookup
name the function infers to itself; with an active call binding the
binding is cleared on a context copy and the call binder resolves the
parameter; otherwise an unextractable parameter list yields `YES`, an
unknown parameter name fails, the bound first argument of a
method/classmethod binds to its frame, a `*`/`**` collector yields its
placeholder, and a declared default yields its inference followed by
`YES` (plain `YES` when there is no default). -/
def infer_function (rec : InferRec) (self : Node) (ctx : Ctx) : M (List IVal) :=
  match ctx.lookupname with
  | none => pure [IVal.node self]
  | some argname =>
    match ctx.callcontext with
    | some callcontext =>
      infer_argument rec callcontext self argname (Ctx.mk ctx.lookupname none ctx.boundnode)
    | none =>
      match self.fargnames with
      | none => pure [IVal.yes]
      | some argnames =>
        if argname ∉ argnames then throw .inferenceError
        else if argnames.head? == some argname && self.ftypeOf == "method" then
          pure [IVal.inst self.pframeOf]
        else if argnames.head? == some argname && self.ftypeOf == "classmethod" then
          pure [IVal.node self.pframeOf]
        else
          match self.mularg_class argname with
          | some mularg => pure [IVal.node mularg]
          | none =>
            match self.default_value argname with
            | some d => do
                let vs ← rec d ctx
                pure (vs ++ [IVal.yes])
            | none => pure [IVal.yes]

/-- `infer_call_result` of a `Function` node: a generator function's
call yields exactly one `Generator` value; otherwise each collected
return expression is inferred, an individual failure contributing `YES`
instead of aborting the rest. -/
def infer_call_result_function (rec : InferRec) (self : Node) (isGen : Bool)
    (returns : List Node) (ctx : Ctx) : M (List IVal) :=
  if isGen then pure [IVal.generator self]
  else concatMapM (fun returnnode => catchInf (rec returnnode ctx) (pure [IVal.yes])) returns

/-- `infer_call_result` of a `Class` node: constructing a class yields
exactly one `Instance` of it. -/
def infer_call_result_class (self : Node) (ctx : Ctx) : M (List IVal) :=
  pure [IVal.inst self]

/-- Dispatch of `.infer_call_result` on an already-inferred callee:
`none` models the `AttributeError` for values without the method
(the `Lambda` variant is outside this model, no claim exercises it). -/
def infer_call_result (rec : InferRec) (callee : IVal) (ctx : Ctx) : Option (M (List IVal)) :=
  match callee with
  | .node (.function nid fname argnames defaults mulargs ftype pframe isGen returns) =>
      some (infer_call_result_function rec
        (.function nid fname argnames defaults mulargs ftype pframe isGen returns) isGen returns ctx)
  | .node (.classN nid cname body) =>
      some (infer_call_result_class (.classN nid cname body) ctx)
  | _ => none

/-- `infer_callfunc`: infer the callee under a context clone carrying
the call binding; `YES` callees propagate as `YES`; other callees
delegate to their call-result rule, skipping per-callee
`AttributeError`/`InferenceError`; fail when no callee ever produced a
value. -/
def infer_callfunc (rec : InferRec) (func : Node) (args : List Node)
    (starargs dstarargs : Option Node) (ctx : Ctx) : M (List IVal) := do
  let ctx2 := Ctx.mk ctx.lookupname (some (CallCtx.make args starargs dstarargs)) ctx.boundnode
  let callees ← rec func ctx2
  let res ← concatMapM
    (fun callee =>
      match callee with
      | .yes => pure [IVal.yes]
      | callee =>
        match infer_call_result rec callee ctx2 with
        | none => pure []
        | some comp => catchInf comp (pure []))
    callees
  if res.isEmpty then throw .inferenceError else pure res

/-- `_infer_binary_operator`: cross product of the operand inferences;
both literal — apply the operator implementation (`none` models the
`TypeError` escape, yielding `YES` for that pairing); a non-literal side
propagates itself when its type declares the operator's overload, else
`YES`.  `const_factory` products carry node identity 0. -/
def infer_binary_operator (rec : InferRec) (env : Env) (left right : Node)
    (impl : Int → Int → Option Int) (meth : String) (ctx : Ctx) : M (List IVal) := do
  let lhss ← rec left ctx
  concatMapM
    (fun lhs =>
      match pyValue lhs with
      | none =>
        if env.getattrOk lhs meth then pure [lhs] else pure [IVal.yes]
      | some lhsvalue => do
        let rhss ← rec right ctx
        concatMapM
          (fun rhs =>
            match pyValue rhs with
            | none =>
              if env.getattrOk rhs meth then pure [rhs] else pure [IVal.yes]
            | some rhsvalue =>
              match impl lhsvalue rhsvalue with
              | none => pure [IVal.yes]
              | some value => pure [IVal.node (.const 0 value)])
          rhss)
    lhss

/-- `BIN_OP_IMPL`, translated entry by entry — including the source's
`'<<'` and `'>>'` entries whose implementations are `lambda a,b: a^b`
(xor), carried over as-is.  Division by zero and a negative power are
modelled as domain errors (`none`); Python integer division and modulus
floor (`Int.fdiv`/`Int.fmod`). -/
def BIN_OP_IMPL (op : String) : Option ((Int → Int → Option Int) × String) :=
  if op == "+" then some ((fun a b => some (a + b)), "__add__")
  else if op == "-" then some ((fun a b => some (a - b)), "__sub__")
  else if op == "/" then some ((fun a b => if b == 0 then none else some (Int.fdiv a b)), "__div__")
  else if op == "//" then some ((fun a b => if b == 0 then none else some (Int.fdiv a b)), "__floordiv__")
  else if op == "*" then some ((fun a b => some (a * b)), "__mul__")
  else if op == "**" then some ((fun a b => if b < 0 then none else some (a ^ b.toNat)), "__power__")
  else if op == "%" then some ((fun a b => if b == 0 then none else some (Int.fmod a b)), "__mod__")
  else if op == "&" then some ((fun a b => some (Int.land a b)), "__and__")
  else if op == "|" then some ((fun a b => some (Int.lor a b)), "__or__")
  else if op == "^" then some ((fun a b => some (Int.xor a b)), "__xor__")
  else if op == "<<" then some ((fun a b => some (Int.xor a b)), "__lshift__")
  else if op == ">>" then some ((fun a b => some (Int.xor a b)), "__rshift__")
  else none

/-- `infer_binop`: look the operator up in `BIN_OP_IMPL` and run the
binary-operator rule (an operator outside the table would be a
`KeyError`; modelled as the generic failure). -/
def infer_binop (rec : InferRec) (env : Env) (op : String) (left right : Node)
    (ctx : Ctx) : M (List IVal) :=
  match BIN_OP_IMPL op with
  | some im => infer_binary_operator rec env left right im.1 im.2 ctx
  | none => throw .inferenceError

/-- Continuation of `infer_subscript` after `self.expr.getitem(value)`:
`AttributeError` (no indexed access on the base, or no `.value` on the
index) becomes the generic failure, `IndexError` degrades to `YES`, and
a successful access infers the retrieved element. -/
def subscript_step (rec : InferRec) (ctx : Ctx) (g : Except GErr Node) : M (List IVal) :=
  match g with
  | .error .attributeError => throw .inferenceError
  | .error .indexError => pure [IVal.yes]
  | .ok assigned => rec assigned ctx

/-- `infer_subscript`: single-index only (anything else fails); take the
index inference's first value (an empty inference ends the surrounding
generator via `StopIteration`, yielding nothing); a `YES` index yields
`YES`; a non-`Const` index has no `.value` and fails; then apply the
base's `getitem`. -/
def infer_subscript (rec : InferRec) (expr : Node) (subs : List Node) (ctx : Ctx) :
    M (List IVal) := do
  match subs with
  | [sub] => do
    let idxvals ← rec sub ctx
    match idxvals with
    | [] => pure []
    | index :: _ =>
      match index with
      | .yes => pure [IVal.yes]
      | .node (.const _ v) => subscript_step rec ctx (Node.getitem expr v)
      | _ => throw .inferenceError
  | _ => throw .inferenceError

/-- `_imported_module_astng`: a relative import resolving to the
importing package's own name fails explicitly (instead of looping on the
self-import); otherwise delegate to the external `import_module`, its
`ASTNGBuildingException`/`SyntaxError` mapped to the generic failure. -/
def imported_module_astng (mymodule : ModuleInfo) (modname : String) : M Node :=
  if mymodule.relativeName modname == mymodule.mname then throw .inferenceError
  else
    match mymodule.importModule modname with
    | .ok m => pure m
    | .error _ => throw .inferenceError

/-- Modelled external `Import.real_name`: resolve the looked-up alias
through the import's `(modname, asname)` list. -/
def real_name (names : List (String × Option String)) (idname : String) : Option String :=
  (names.find? (fun p => (p.2.getD p.1) == idname)).map (·.1)

/-- `infer_import` (with the default `asname=True`): requires a lookup
name, resolves it to the real module name and yields the imported
module's ast. -/
def infer_import (env : Env) (names : List (String × Option String)) (ctx : Ctx) :
    M (List IVal) := do
  match ctx.lookupname with
  | none => throw .inferenceError
  | some idname =>
    match real_name names idname with
    | none => throw .inferenceError
    | some modname => do
      let m ← imported_module_astng env.root modname
      pure [IVal.node m]

/-- The per-kind inference dispatch.  `Module`, `Class`, `List` and
`Tuple` use the unwrapped `infer_end` (they infer to themselves); the
`Const` rule lives outside `src/` and is modelled from the spec the same
way ("literal containers, class, module nodes: infer to themselves").
Every other kind is wrapped by the `path_wrapper` recursion guard,
modelled from the spec (§4.1): a `(node identity, lookup name)` key
already on the guard path yields nothing for this branch, otherwise it
is recorded before dispatching.  Kinds with no rule fail with the
generic failure (`infer_default`).  The fuel argument makes the
embedding total; exhausting it raises the distinguished `outOfFuel`
error, which no aggregation point catches. -/
def infer (env : Env) : Nat → Node → Ctx → M (List IVal)
  | 0, _, _ => throw .outOfFuel
  | fuel + 1, n, ctx =>
    match n with
    | .module nid mname => pure [IVal.node (.module nid mname)]
    | .classN nid cname body => pure [IVal.node (.classN nid cname body)]
    | .listN nid elts => pure [IVal.node (.listN nid elts)]
    | .tupleN nid elts => pure [IVal.node (.tupleN nid elts)]
    | .const nid v => pure [IVal.node (.const nid v)]
    | n => do
      let key : Nat × Option String := (n.nid, ctx.lookupname)
      let path ← get
      if key ∈ path then pure []
      else do
        set (key :: path)
        match n with
        | .name _ idname => infer_name (infer env fuel) env idname ctx
        | .callFunc _ func args starargs dstarargs =>
            infer_callfunc (infer env fuel) func args starargs dstarargs ctx
        | .binOp _ op left right => infer_binop (infer env fuel) env op left right ctx
        | .subscript _ expr subs => infer_subscript (infer env fuel) expr subs ctx
        | .function _ _ _ _ _ _ _ _ _ => infer_function (infer env fuel) n ctx
        | .importN _ names => infer_import env names ctx
        | _ => throw .inferenceError

/-- The generator loop of `_resolve_asspart` over the candidate parts:
a step returning `none` models the loop's `return` (stop yielding, keep
what was already yielded). -/
def resolve_loop (step : IVal → M (Option (List IVal))) : List IVal → M (List IVal)
  | [] => pure []
  | part :: rest => do
    match ← step part with
    | none => pure []
    | some vs => do
        let t ← resolve_loop step rest
        pure (vs ++ t)

/-- One candidate's step of `_resolve_asspart`, given the result of
`part.getitem(index)`: a failed access returns (aborting the loop); on
the last path step the element is yielded un-inferred; otherwise a `YES`
element returns ("cannot look inside an unknown value"), and any other
element is handed to the deeper resolution, whose `InferenceError` also
returns. -/
def resolve_step (deeper : Option (IVal → M (List IVal))) (g : Except GErr IVal) :
    M (Option (List IVal)) :=
  match g with
  | .error _ => pure none
  | .ok assigned =>
    match deeper with
    | none => pure (some [assigned])
    | some d =>
      match assigned with
      | .yes => pure none
      | assigned => catchInf (do
          let r ← d assigned
          pure (some r)) (pure none)

/-- `_resolve_asspart`: pop the next index off the access path and apply
indexed access to every candidate via the loop above; when the path is
not yet exhausted, each element is inferred and resolved recursively.
The empty-path case is unreachable (callers always pass a non-empty
path; Python would raise `IndexError` on `pop`). -/
def resolve_asspart (env : Env) (fuel : Nat) (ctx : Ctx) :
    List Int → List IVal → M (List IVal)
  | [], _ => pure []
  | index :: asspath, parts =>
    resolve_loop
      (fun part =>
        resolve_step
          (if asspath.isEmpty then none
           else some (fun assigned => do
              let vs ← inferIVal (infer env fuel) assigned ctx
              resolve_asspart env fuel ctx asspath vs))
          (part.getitem index))
      parts

/-- `Assign.assigned_stmts` for the assignment's right-hand expression:
no access path yields the expression itself un-inferred; otherwise the
expression is inferred and the path resolved over its candidates,
failing when nothing was found. -/
def assign_assigned_stmts (env : Env) (fuel : Nat) (expr : Node) (asspath : List Int)
    (ctx : Ctx) : M (List IVal) :=
  match asspath with
  | [] => pure [IVal.node expr]
  | asspath => do
      let parts ← infer env fuel expr ctx
      let res ← resolve_asspart env fuel ctx asspath parts
      if res.isEmpty then throw .inferenceError else pure res

/-- Run a top-level inference request: fresh guard path, final state
discarded. -/
def runInfer (env : Env) (fuel : Nat) (n : Node) (ctx : Ctx) : Except Err (List IVal) :=
  (((infer env fuel n ctx).run).run []).1

/-- Run `assigned_stmts` as a top-level request. -/
def runAssigned (env : Env) (fuel : Nat) (expr : Node) (asspath : List Int) (ctx : Ctx) :
    Except Err (List IVal) :=
  (((assign_assigned_stmts env fuel expr asspath ctx).run).run []).1

/-- Run `_resolve_asspart` on given candidates as a top-level request. -/
def runResolve (env : Env) (fuel : Nat) (ctx : Ctx) (asspath : List Int) (parts : List IVal) :
    Except Err (List IVal) :=
  (((resolve_asspart env fuel ctx asspath parts).run).run []).1

/-- A fresh top-level inference context. -/
def ctx0 : Ctx := Ctx.mk none none none

/-- A module-resolution collaborator nothing resolves through. -/
def mi0 : ModuleInfo := ModuleInfo.mk "" (fun s => s) (fun _ => .error ())

/-- An environment with empty scopes and no attribute capabilities. -/
def envNil : Env := Env.mk (fun _ => []) (fun _ _ => false) mi0

/-- The expression `2 << 1`. -/
def b1 : Node := .binOp 1 "<<" (.const 2 2) (.const 3 1)

/-- The expression `2 >> 1`. -/
def b2 : Node := .binOp 4 ">>" (.const 5 2) (.const 6 1)

/-- The return expression `f(n)` of `def f(n): return f(n)`. -/
def nF2ret : Node := .callFunc 3 (.name 1 "f") [.name 2 "n"] none none

/-- The function `def f(n): return f(n)`, whose collected return-value
expressions are exactly its own call `f(n)`. -/
def nF2 : Node := .function 10 "f" (some ["n"]) [] [] "function" (.module 90 "m") false [nF2ret]

/-- An environment whose scope lookup resolves `f` to the function of
`def f(n): return f(n)`. -/
def env2 : Env := Env.mk (fun s => if s = "f" then [nF2] else []) (fun _ _ => false) mi0

/-- The function `def f(a, b=1): ...`. -/
def F3 : Node :=
  .function 10 "f" (some ["a", "b"]) [("b", .const 20 1)] [] "function" (.module 90 "m") false []

/-- Context inferring parameter `b` under the active call binding of
`f(5)` (one positional argument). -/
def ctxB : Ctx := Ctx.mk (some "b") (some (CallCtx.mk [.const 30 5] [] none none)) none

/-- Context inferring parameter `a` under the active call binding of
`f(x)` (one positional argument). -/
def ctxA (x : Node) : Ctx := Ctx.mk (some "a") (some (CallCtx.mk [x] [] none none)) none

/-- The expression `2 + 3`. -/
def e41 : Node := .binOp 1 "+" (.const 2 2) (.const 3 3)

/-- The expression `2 + g()` where `g` resolves in no scope of
`envNil`. -/
def e42 : Node := .binOp 4 "+" (.const 5 2) (.callFunc 6 (.name 7 "g") [] none none)

/-- A single-index subscript of an integer-literal list by the constant
index `i`. -/
def sub1 (vs : List Int) (i : Int) : Node :=
  .subscript 1 (.listN 3 (vs.map (Node.const 0))) [.const 2 i]

/-- The state of a `sub1`-shaped inference right after
`self.expr.getitem(index.value)`: the remaining computation applied to
the access's outcome (the guard path already carries the subscript's
key). -/
def afterGetitem (g : Except GErr Node) : Except Err (List IVal) :=
  (((subscript_step (infer envNil 2) ctx0 g).run).run [((1 : Nat), (none : Option String))]).1

/-- The right-hand expression `(1, (2, 3))` of
`(a, (b, c)) = (1, (2, 3))`. -/
def nAssignExpr : Node := .tupleN 11 [.const 12 1, .tupleN 13 [.const 14 2, .const 15 3]]

/-- An `import pkg` node inside package `pkg` itself. -/
def nImp : Node := .importN 40 [("pkg", none)]

/-- Context resolving the imported name `pkg`. -/
def ctxPkg : Ctx := Ctx.mk (some "pkg") none none

/-- The importing package `pkg`, whose relative resolution maps the
module name to itself, with a configurable `import_module`. -/
def env8 (im : String → Except Unit Node) : Env :=
  Env.mk (fun _ => []) (fun _ _ => false) (ModuleInfo.mk "pkg" (fun s => s) im)

/-- A function whose parameter list is statically unextractable
(`argnames is None`). -/
def F9 : Node := .function 60 "g" none [] [] "function" (.module 90 "m") false []

/-- Context inferring parameter `b` of `F9` under an active call binding
carrying the keyword argument `b=7`. -/
def ctxG : Ctx := Ctx.mk (some "b") (some (CallCtx.mk [] [("b", .const 61 7)] none none)) none

/-- In-range forward indexing of a mapped constant list. -/
theorem tl_getitem_map_in_range (vs : List Int) (i : Int) (h0 : 0 ≤ i)
    (h1 : i.toNat < vs.length) :
    tl_getitem (vs.map (Node.const 0)) i = .ok (Node.const 0 (vs.get ⟨i.toNat, h1⟩)) := by
  have hp : pyIndex (vs.map (Node.const 0)).length i = some i.toNat := by
    unfold pyIndex
    rw [List.length_map, if_pos h0, if_pos (by omega : i < (vs.length : Int))]
  simp only [tl_getitem, hp, Option.some_bind, List.get?_map, List.get?_eq_get h1]
  rfl

/-- Indexing outside both the forward and the backward range raises
`IndexError`. -/
theorem tl_getitem_map_oor (vs : List Int) (i : Int)
    (h : (vs.length : Int) ≤ i ∨ i < -(vs.length : Int)) :
    tl_getitem (vs.map (Node.const 0)) i = .error .indexError := by
  have hp : pyIndex (vs.map (Node.const 0)).length i = none := by
    unfold pyIndex
    rw [List.length_map]
    rcases h with h | h
    · rw [if_pos (by omega : (0 : Int) ≤ i), if_neg (by omega : ¬ i < (vs.length : Int))]
    · rw [if_neg (by omega : ¬ (0 : Int) ≤ i),
        if_neg (by omega : ¬ (0 : Int) ≤ (vs.length : Int) + i)]
  simp only [tl_getitem, hp]
  rfl

/-- In-range backward (negative) indexing of a mapped constant list. -/
theorem tl_getitem_map_neg (vs : List Int) (i : Int) (h0 : i < 0)
    (h1 : -(vs.length : Int) ≤ i) (h2 : ((vs.length : Int) + i).toNat < vs.length) :
    tl_getitem (vs.map (Node.const 0)) i
        = .ok (Node.const 0 (vs.get ⟨((vs.length : Int) + i).toNat, h2⟩)) := by
  have hp : pyIndex (vs.map (Node.const 0)).length i = some ((vs.length : Int) + i).toNat := by
    unfold pyIndex
    rw [List.length_map, if_neg (by omega : ¬ (0 : Int) ≤ i),
      if_pos (by omega : (0 : Int) ≤ (vs.length : Int) + i)]
  simp only [tl_getitem, hp, Option.some_bind, List.get?_map, List.get?_eq_get h2]
  rfl

/-- Claim C1: the source's `BIN_OP_IMPL` aliases the shift operators to
xor, so inferring `2 << 1` and `2 >> 1` yields the literal `3`
(`2 xor 1`) — whereas the true shift semantics the claim demands give
`2 << 1 = 4` and `2 >> 1 = 1`.  This evaluates the code at the claim's
failing input. -/
theorem C1_shift_ops_use_xor_eval :
    runInfer envNil 2 b1 ctx0 = .ok [IVal.node (.const 0 3)] ∧
    runInfer envNil 2 b2 ctx0 = .ok [IVal.node (.const 0 3)] ∧
    (2 : Int) <<< (1 : Int) = 4 ∧ (2 : Int) >>> (1 : Int) = 1 :=
  ⟨rfl, rfl, by decide, by decide⟩

/-- Claim C2: for `def f(n): return f(n)`, inferring the return
expression `f(n)` terminates for every fuel budget of at least 4: the
recursion guard makes the self-referential branch yield nothing, the
call inference therefore aggregates no value and fails with the generic
`InferenceError` — never fuel exhaustion, i.e. the recursion is cut
after finitely many steps. -/
theorem C2_self_recursive_call_inference_terminates :
    ∀ m : Nat, runInfer env2 (m + 4) nF2ret ctx0 = .error Err.inferenceError :=
  fun _ => rfl

/-- Witness for C2 at the smallest stated fuel. -/
theorem C2_self_recursive_witness :
    runInfer env2 4 nF2ret ctx0 = .error Err.inferenceError :=
  C2_self_recursive_call_inference_terminates 0

/-- Counterexample to claim C3 as stated: with the active call binding
of `f(5)`, inferring parameter `b` of `def f(a, b=1)` yields exactly the
literal `1` — not the literal `1` followed by Unknown. -/
theorem C3_default_no_trailing_unknown_counterexample :
    runInfer envNil 2 F3 ctxB ≠ .ok [IVal.node (.const 20 1), IVal.yes] := by
  have h : runInfer envNil 2 F3 ctxB = .ok [IVal.node (.const 20 1)] := rfl
  rw [h]
  intro hc
  injection hc with h1
  injection h1 with h2 h3
  exact List.noConfusion h3

/-- Claim C3 (amended): for `def f(a, b=1)` called as `f(x)` with an
active call binding, inferring `b` yields exactly the literal `1` (the
default's inference, with no trailing Unknown), and inferring `a` is
exactly the inference of `x` under the context whose call binding has
been cleared (the recursion-guard key of the function having been
recorded). -/
theorem C3_call_argument_binding :
    runInfer envNil 2 F3 ctxB = .ok [IVal.node (.const 20 1)] ∧
    ∀ (env : Env) (x : Node) (m : Nat),
      runInfer env (m + 1) F3 (ctxA x)
        = (((infer env m x (Ctx.mk (some "a") none none)).run).run [(10, some "a")]).1 :=
  ⟨rfl, fun _ _ _ => rfl⟩

/-- Witness for C3's amended theorem at `x := 9`. -/
theorem C3_call_argument_binding_witness :
    runInfer envNil 2 F3 (ctxA (.const 77 9))
      = (((infer envNil 1 (.const 77 9) (Ctx.mk (some "a") none none)).run).run
          [(10, some "a")]).1 :=
  C3_call_argument_binding.2 envNil (.const 77 9) 1

/-- Counterexample to claim C4 as stated: `2 + g()` with `g`
unresolvable does not infer to Unknown — the whole inference fails
(with `UnresolvableName`), yielding no value at all. -/
theorem C4_unresolvable_operand_counterexample :
    runInfer envNil 3 e42 ctx0 = .error (Err.unresolvableName "g") ∧
    ¬ ∃ l, runInfer envNil 3 e42 ctx0 = .ok l := by
  refine ⟨rfl, ?_⟩
  rintro ⟨l, hl⟩
  have h : runInfer envNil 3 e42 ctx0 = .error (Err.unresolvableName "g") := rfl
  rw [h] at hl
  exact Except.noConfusion hl

/-- Claim C4 (amended): `2 + 3` infers to the single literal `5`; but
`2 + g()` with `g` resolvable in no scope fails — the
`UnresolvableName` failure raised while inferring the right operand
propagates out of the binary-operation inference — rather than
degrading to Unknown.  Both hold at every sufficient fuel budget. -/
theorem C4_binop_literal_and_unresolvable :
    (∀ m : Nat, runInfer envNil (m + 2) e41 ctx0 = .ok [IVal.node (.const 0 5)]) ∧
    (∀ m : Nat, runInfer envNil (m + 3) e42 ctx0 = .error (Err.unresolvableName "g")) :=
  ⟨fun _ => rfl, fun _ => rfl⟩

/-- Witness for C4's amended theorem at the smallest stated fuels. -/
theorem C4_binop_witness :
    runInfer envNil 2 e41 ctx0 = .ok [IVal.node (.const 0 5)] ∧
    runInfer envNil 3 e42 ctx0 = .error (Err.unresolvableName "g") :=
  ⟨C4_binop_literal_and_unresolvable.1 0, C4_binop_literal_and_unresolvable.2 0⟩

/-- Claim C5: subscripting a list literal of constants by a single
constant index yields the element at that position when the index is in
range, degrades to Unknown when it is out of range, and a multi-index
subscript fails with the generic inference failure. -/
theorem C5_subscript_single_index (vs : List Int) (i : Int) (extra : List Node) :
    (∀ (h0 : 0 ≤ i) (h1 : i.toNat < vs.length),
        runInfer envNil 3 (sub1 vs i) ctx0
          = .ok [IVal.node (.const 0 (vs.get ⟨i.toNat, h1⟩))]) ∧
    (((vs.length : Int) ≤ i ∨ i < -(vs.length : Int)) →
        runInfer envNil 3 (sub1 vs i) ctx0 = .ok [IVal.yes]) ∧
    runInfer envNil 3
        (.subscript 1 (.listN 3 (vs.map (Node.const 0))) (.const 2 i :: .const 4 i :: extra))
        ctx0 = .error Err.inferenceError := by
  refine ⟨?_, ?_, rfl⟩
  · intro h0 h1
    have hb : runInfer envNil 3 (sub1 vs i) ctx0
        = afterGetitem (tl_getitem (vs.map (Node.const 0)) i) := rfl
    rw [hb, tl_getitem_map_in_range vs i h0 h1]
    rfl
  · intro h
    have hb : runInfer envNil 3 (sub1 vs i) ctx0
        = afterGetitem (tl_getitem (vs.map (Node.const 0)) i) := rfl
    rw [hb, tl_getitem_map_oor vs i h]
    rfl

/-- Witness for C5 on `[10, 20, 30]` at indices 1 (in range), 5 (out of
range) and on the two-index subscript. -/
theorem C5_subscript_witness :
    runInfer envNil 3 (sub1 [10, 20, 30] 1) ctx0 = .ok [IVal.node (.const 0 20)] ∧
    runInfer envNil 3 (sub1 [10, 20, 30] 5) ctx0 = .ok [IVal.yes] ∧
    runInfer envNil 3
        (.subscript 1 (.listN 3 ([10, 20, 30].map (Node.const 0))) [.const 2 1, .const 4 1])
        ctx0 = .error Err.inferenceError :=
  ⟨(C5_subscript_single_index [10, 20, 30] 1 []).1 (by decide) (by decide),
   (C5_subscript_single_index [10, 20, 30] 5 []).2.1 (Or.inl (by decide)),
   (C5_subscript_single_index [10, 20, 30] 1 []).2.2⟩

/-- Counterexample to claim C6 as stated: in `_resolve_asspart`, a
candidate on which indexed access fails is not merely dropped — the loop
returns, so the later candidate (a tuple that would contribute its
element `8`) is never tried and the resolution yields nothing. -/
theorem C6_failed_candidate_aborts_counterexample :
    runResolve envNil 2 ctx0 [0]
        [IVal.node (.const 12 1), IVal.node (.tupleN 13 [.const 14 8, .const 15 9])]
      = .ok [] ∧
    runResolve envNil 2 ctx0 [0]
        [IVal.node (.const 12 1), IVal.node (.tupleN 13 [.const 14 8, .const 15 9])]
      ≠ .ok [IVal.node (.const 14 8)] := by
  refine ⟨rfl, ?_⟩
  have h : runResolve envNil 2 ctx0 [0]
      [IVal.node (.const 12 1), IVal.node (.tupleN 13 [.const 14 8, .const 15 9])]
      = .ok ([] : List IVal) := rfl
  rw [h]
  intro hc
  injection hc with h1
  exact List.noConfusion h1

/-- Claim C6 (amended): resolving target `c` of
`(a, (b, c)) = (1, (2, 3))` with access path `[1, 1]` yields exactly the
un-inferred literal `3`; resolving a target whose path steps into a
non-container fails; and a candidate on which indexed access fails
aborts the resolution of the remaining candidates as well (the loop
returns with what was already yielded — here nothing), rather than being
dropped with the rest still tried. -/
theorem C6_destructuring_resolution :
    runAssigned envNil 2 nAssignExpr [1, 1] ctx0 = .ok [IVal.node (.const 15 3)] ∧
    runAssigned envNil 2 (.const 16 9) [0] ctx0 = .error Err.inferenceError ∧
    ∀ (env : Env) (fuel : Nat) (ctx : Ctx) (idx : Int) (rest : List Int) (p : IVal)
      (parts : List IVal) (e : GErr) (path : GuardPath),
      p.getitem idx = .error e →
      (((resolve_asspart env fuel ctx (idx :: rest) (p :: parts)).run).run path).1 = .ok [] := by
  refine ⟨rfl, rfl, ?_⟩
  intro env fuel ctx idx rest p parts e path h
  simp only [resolve_asspart, resolve_loop, h, resolve_step, pure_bind]
  rfl

/-- Witness for C6's amended theorem: a constant candidate has no
`getitem`, and the resolution of the singleton candidate list yields
nothing. -/
theorem C6_destructuring_witness :
    (((resolve_asspart envNil 1 ctx0 [0] [IVal.node (.const 16 9)]).run).run []).1 = .ok [] :=
  C6_destructuring_resolution.2.2 envNil 1 ctx0 0 [] (IVal.node (.const 16 9)) []
    GErr.attributeError [] rfl

/-- Claim C7: resolving the result of calling any class node yields
exactly one value, an `Instance` referencing that class, whatever the
class body contains; and the call-result dispatch of a class callee is
exactly that rule. -/
theorem C7_class_construction_single_instance (nid : Nat) (cname : String) (body : List Node)
    (ctx : Ctx) (p : GuardPath) :
    ((infer_call_result_class (Node.classN nid cname body) ctx).run).run p
        = (Except.ok [IVal.inst (Node.classN nid cname body)], p) ∧
    ∀ (rec : InferRec), infer_call_result rec (IVal.node (Node.classN nid cname body)) ctx
        = some (infer_call_result_class (Node.classN nid cname body) ctx) :=
  ⟨rfl, fun _ => rfl⟩

/-- Witness for C7 on a concrete class with a non-empty body. -/
theorem C7_class_construction_witness :
    ((infer_call_result_class (Node.classN 70 "SomeClass" [Node.const 71 0]) ctx0).run).run []
      = (Except.ok [IVal.inst (Node.classN 70 "SomeClass" [Node.const 71 0])], []) :=
  (C7_class_construction_single_instance 70 "SomeClass" [Node.const 71 0] ctx0 []).1

/-- Counterexample to claim C8 as stated: the self-import failure is the
generic `InferenceError` — the very same exception the default no-rule
inference raises — not a distinct module-resolution subtype (the source
defines none), even when the external `import_module` would succeed. -/
theorem C8_generic_error_counterexample :
    runInfer (env8 (fun _ => .ok (.module 99 "other"))) 1 nImp ctxPkg
      = .error Err.inferenceError ∧
    runInfer (env8 (fun _ => .ok (.module 99 "other"))) 1 (.keyword 50 "k" (.const 51 0)) ctx0
      = .error Err.inferenceError :=
  ⟨rfl, rfl⟩

/-- Claim C8 (amended): a module importing, via a relative reference, a
module whose resolved name equals the importing package's own name fails
with the generic `InferenceError` for every `import_module` collaborator
and every fuel budget of at least 1 — the import is never attempted and
no recursion takes place. -/
theorem C8_self_import_fails_generic :
    ∀ (im : String → Except Unit Node) (m : Nat),
      runInfer (env8 im) (m + 1) nImp ctxPkg = .error Err.inferenceError :=
  fun _ _ => rfl

/-- Witness for C8 with a succeeding `import_module` at fuel 1. -/
theorem C8_self_import_witness :
    runInfer (env8 (fun _ => .ok (.module 99 "whatever"))) 1 nImp ctxPkg
      = .error Err.inferenceError :=
  C8_self_import_fails_generic (fun _ => .ok (.module 99 "whatever")) 0

/-- Counterexample to claim C9 as stated: asked for parameter `b` of a
callee with an unextractable parameter list, the call binder does not
yield Unknown immediately — it resolves the keyword argument `b=7`
first and yields the literal `7`. -/
theorem C9_keyword_tried_counterexample :
    runInfer envNil 2 F9 ctxG = .ok [IVal.node (.const 61 7)] ∧
    runInfer envNil 2 F9 ctxG ≠ .ok [IVal.yes] := by
  refine ⟨rfl, ?_⟩
  have h : runInfer envNil 2 F9 ctxG = .ok [IVal.node (.const 61 7)] := rfl
  rw [h]
  intro hc
  injection hc with h1
  injection h1 with h2 h3
  exact IVal.noConfusion h2

/-- Claim C9 (amended): an unextractable parameter list yields Unknown
immediately only when there is no active call binding; the call binder
itself always consults the named keyword arguments first — for any
callee, extractable or not — and resolves a matching keyword to that
expression's inference instead of Unknown. -/
theorem C9_unextractable_argnames :
    (∀ (nid : Nat) (fn ft : String) (ds ms : List (String × Node)) (pf : Node) (g : Bool)
        (rets : List Node) (pname : String) (bn : Option Node) (m : Nat),
        runInfer envNil (m + 1) (.function nid fn none ds ms ft pf g rets)
          (Ctx.mk (some pname) none bn) = .ok [IVal.yes]) ∧
    ∀ (rec : InferRec) (cc : CallCtx) (f : Node) (pname : String) (ctx : Ctx)
      (e : String × Node),
      cc.nargs.find? (fun p => p.1 == pname) = some e →
      infer_argument rec cc f pname ctx = rec e.2 ctx := by
  refine ⟨fun _ _ _ _ _ _ _ _ _ _ _ => rfl, ?_⟩
  intro rec cc f pname ctx e h
  simp only [infer_argument, h]

/-- Witness for C9's amended theorem: the unextractable function `F9`
with no binding yields Unknown, and the binder resolves the keyword
`b=7` directly. -/
theorem C9_unextractable_witness :
    runInfer envNil 1 F9 (Ctx.mk (some "b") none none) = .ok [IVal.yes] ∧
    infer_argument (infer envNil 1) (CallCtx.mk [] [("b", .const 61 7)] none none) F9 "b" ctx0
      = infer envNil 1 (Node.const 61 7) ctx0 :=
  ⟨C9_unextractable_argnames.1 60 "g" "function" [] [] (.module 90 "m") false [] "b" none 0,
   C9_unextractable_argnames.2 (infer envNil 1) (CallCtx.mk [] [("b", .const 61 7)] none none)
     F9 "b" ctx0 ("b", .const 61 7) rfl⟩

/-- Claim C10: subscripting a list or tuple literal of constants by a
single constant negative index whose magnitude does not exceed the
element count yields the element counted from the end. -/
theorem C10_negative_index_subscript (vs : List Int) (i : Int) (h0 : i < 0)
    (h1 : -(vs.length : Int) ≤ i) (h2 : ((vs.length : Int) + i).toNat < vs.length) :
    runInfer envNil 3 (sub1 vs i) ctx0
        = .ok [IVal.node (.const 0 (vs.get ⟨((vs.length : Int) + i).toNat, h2⟩))] ∧
    runInfer envNil 3 (.subscript 1 (.tupleN 3 (vs.map (Node.const 0))) [.const 2 i]) ctx0
        = .ok [IVal.node (.const 0 (vs.get ⟨((vs.length : Int) + i).toNat, h2⟩))] := by
  constructor
  · have hb : runInfer envNil 3 (sub1 vs i) ctx0
        = afterGetitem (tl_getitem (vs.map (Node.const 0)) i) := rfl
    rw [hb, tl_getitem_map_neg vs i h0 h1 h2]
    rfl
  · have hb : runInfer envNil 3
          (.subscript 1 (.tupleN 3 (vs.map (Node.const 0))) [.const 2 i]) ctx0
        = afterGetitem (tl_getitem (vs.map (Node.const 0)) i) := rfl
    rw [hb, tl_getitem_map_neg vs i h0 h1 h2]
    rfl

/-- Witness for C10: `(1, 2, 3)[-1]` and `[1, 2, 3][-1]` infer to the
literal `3`. -/
theorem C10_negative_index_witness :
    runInfer envNil 3 (sub1 [1, 2, 3] (-1)) ctx0 = .ok [IVal.node (.const 0 3)] ∧
    runInfer envNil 3 (.subscript 1 (.tupleN 3 ([1, 2, 3].map (Node.const 0))) [.const 2 (-1)])
        ctx0 = .ok [IVal.node (.const 0 3)] :=
  C10_negative_index_subscript [1, 2, 3] (-1) (by decide) (by decide) (by decide)

end Astng
